import Mathlib

/-!
# Night Sky Viewer — Sky Snapshot Engine, verified shallow embedding

This file embeds the computational engine of `night_sky/sky_model.py`
(`SkyModel` and its helpers) in Lean 4 and proves or refutes the frozen
claims about it.

Modelling conventions:
* Python floats are modelled as elements of a `LinearOrderedField α`
  (instantiated at `ℚ` for executable checks and at `ℝ` where the source
  computes with trigonometric functions).
* Calls into astropy (coordinate transforms, `get_body`, `.separation`,
  `download_file`) are oracles: their results are inputs of the embedded
  functions.  A Python call that may raise is modelled with `Option`
  (`none` = the call raised and the surrounding `except` branch runs).
* Times are integer minutes; `datetime.replace(minute=0, second=0,
  microsecond=0)` becomes truncation to the enclosing hour.
-/

namespace NightSky

/-! ## Data model (dataclasses `Star`, `Planet`, `DeepSkyObject`, `SkySnapshot`) -/

/-- `Star` dataclass: a catalog star at a specific observation time. -/
structure Star (α : Type) where
  id : ℤ
  name : String
  ra_deg : α
  dec_deg : α
  mag : α
  alt_deg : α
  az_deg : α
  deriving DecidableEq

/-- `Planet` dataclass: a solar-system body (planet or Moon). -/
structure Planet (α : Type) where
  name : String
  ra_deg : α
  dec_deg : α
  alt_deg : α
  az_deg : α
  magnitude : Option α
  phase_fraction : Option α
  phase_name : Option String
  waxing : Option Bool
  deriving DecidableEq

/-- `DeepSkyObject` dataclass: Messier/DSO markers and meteor radiants. -/
structure DeepSkyObject (α : Type) where
  name : String
  ra_deg : α
  dec_deg : α
  alt_deg : α
  az_deg : α
  obj_type : String
  deriving DecidableEq

/-- The dict entries appended to `events` by `compute_snapshot`: either a
rise/set/culmination record or a separation event (conjunction or coarse
eclipse window). -/
inductive SkyEvent (α : Type) where
  | riseSet (name : String) (rise : Option ℤ) (setTime : Option ℤ) (culmination_alt : α)
  | sepEvent (name : String) (separation_deg : α)
  deriving DecidableEq

/-- `SkySnapshot` dataclass: the immutable result of `compute_snapshot`. -/
structure SkySnapshot (α : Type) where
  visible_stars : List (Star α)
  visible_planets : List (Planet α)
  moon : Option (Planet α)
  deep_sky_objects : List (DeepSkyObject α)
  events : List (SkyEvent α)
  deriving DecidableEq

/-- A row of the bright-star catalog (`self.stars`): a dict with keys
`id`, `name`, `ra_deg`, `dec_deg`, `mag`.  The `mag` field is the result
of `float(s.get('mag', 99.0))`: `none` models an unparseable magnitude
(i.e. the conversion raised). -/
structure CatalogRow (α : Type) where
  id : ℤ
  name : String
  ra_deg : α
  dec_deg : α
  mag : Option α
  deriving DecidableEq

/-- The configuration fields of `SkyModel.__init__` relevant to the claims. -/
structure Config (α : Type) where
  limiting_magnitude : α
  apply_refraction : Bool
  twilight_sun_alt : α
  light_pollution_bortle : ℤ

variable {α : Type}

/-! ## Catalog filter (`SkyModel._filter_catalog_by_mag`, lines 150–162,
and the effective-limit computation of `compute_snapshot`, lines 454–457) -/

/-- `__init__`: `self.light_pollution_bortle = max(1, min(int(...), 9))`. -/
def clampBortle (b : ℤ) : ℤ := max 1 (min b 9)

/-- `_filter_catalog_by_mag`: return stars with magnitude `<= mag_limit`
(or all if `mag_limit is None`); rows whose magnitude fails to convert to
`float` are skipped silently (`except Exception: continue`). -/
def filterCatalogByMag [LinearOrder α] (catalog : List (CatalogRow α)) (magLimit : Option α) :
    List (CatalogRow α) :=
  match magLimit with
  | none => catalog
  | some lim =>
    catalog.filter fun s =>
      match s.mag with
      | none => false
      | some m => decide (m ≤ lim)

/-- `compute_snapshot`, lines 454–456:
`lp_penalty = max(0, self.light_pollution_bortle - 1) * 0.2` and
`effective_lim_mag = max(-5.0, self.limiting_magnitude - lp_penalty)`. -/
def effectiveLimMag [LinearOrderedField α] (limMag : α) (bortle : ℤ) : α :=
  max (-5) (limMag - ((max 0 (bortle - 1) : ℤ) : α) * (2 / 10))

/-- The synthetic catalog of the spec's Catalog Filter scenario:
stars at magnitudes 1.0, 4.0, 4.5, 7.0. -/
def synthCatalog : List (CatalogRow ℚ) :=
  [⟨1, "s1", 0, 0, some 1⟩, ⟨2, "s2", 10, 0, some 4⟩,
   ⟨3, "s3", 20, 0, some (9/2)⟩, ⟨4, "s4", 30, 0, some 7⟩]

/-! ## Rise/set/culmination solver (`SkyModel._compute_rise_set_for_coord`,
lines 194–214).  Times are integer minutes; the AltAz transform of the fixed
coordinate is the oracle `altAt : ℤ → α`. -/

/-- `dt_utc.replace(minute=0, second=0, microsecond=0)` on a time measured in
minutes: truncate to the enclosing hour. -/
def floorHourMinutes (t : ℤ) : ℤ := t - t % 60

/-- The sample instants: `start = floor_hour(dt_utc) - 12h`, then
`start + i * step_minutes` for `i in range(0, int(24*60/step_minutes) + 1)`. -/
def riseSetSampleTimes (t0 step : ℤ) : List ℤ :=
  (List.range ((1440 / step).toNat + 1)).map fun i =>
    floorHourMinutes t0 - 720 + step * (i : ℤ)

/-- The zero-crossing loop of `_compute_rise_set_for_coord`
(`for i in range(1, len(alts))`): each upward crossing overwrites `rise`,
each downward crossing overwrites `set_`. -/
def crossLoop [LinearOrder α] [Zero α] : List (ℤ × α) → α → Option ℤ × Option ℤ → Option ℤ × Option ℤ
  | [], _, acc => acc
  | (t, a) :: rest, back, (r, s) =>
    crossLoop rest a
      ((if back ≤ 0 ∧ 0 < a then some t else r),
       (if 0 ≤ back ∧ a < 0 then some t else s))

/-- `max(alts)` over a nonempty list given as head and tail. -/
def foldMax [LinearOrder α] (a : α) (l : List α) : α := l.foldl max a

/-- `_compute_rise_set_for_coord`: returns `(rise, set_, culminate)`.
The altitude of the fixed coordinate at each sample instant is the oracle
`altAt`. -/
def computeRiseSetForCoord [LinearOrder α] [Zero α] (altAt : ℤ → α) (t0 step : ℤ) :
    Option ℤ × Option ℤ × α :=
  let times := riseSetSampleTimes t0 step
  let alts := times.map altAt
  match times.zip alts with
  | [] => (none, none, 0)
  | (_, a0) :: rest =>
    let rs := crossLoop rest a0 (none, none)
    (rs.1, rs.2, foldMax a0 (rest.map Prod.snd))

/-! ## Event detector (`SkyModel._detect_conjunctions`, lines 236–260).
Coordinates are `(ra_deg, dec_deg)` pairs; `astropy`'s
`coord_a.separation(coord_b).degree` is the oracle `sepf`. -/

/-- The list `bodies` built by `_detect_conjunctions`: every planet of the
given list, then the Moon when `moon_obj` is present. -/
def conjBodies (planets : List (Planet α)) (moonObj : Option (Planet α)) :
    List (String × (α × α)) :=
  planets.map (fun p => (p.name, (p.ra_deg, p.dec_deg))) ++
    (match moonObj with
     | some m => [("Moon", (m.ra_deg, m.dec_deg))]
     | none => [])

/-- The pairwise double loop (`for i ... for j in range(i+1, ...)`): a pair
with separation `< 5.0` produces a conjunction event named by both bodies. -/
def conjPairLoop [LinearOrderedRing α] (sepf : α × α → α × α → α) :
    List (String × (α × α)) → List (SkyEvent α)
  | [] => []
  | (na, ca) :: rest =>
    (rest.filterMap fun b =>
      let s := sepf ca b.2
      if s < 5 then
        some (SkyEvent.sepEvent ("Conjunction: " ++ na ++ " & " ++ b.1) s)
      else none) ++ conjPairLoop sepf rest

/-- `_detect_conjunctions`: pairwise conjunction scan, then the coarse
eclipse screens from the Sun–Moon separation (`sep < 8.0` flags a solar
window, `abs(sep - 180.0) < 8.0` a lunar window). -/
def detectConjunctions [LinearOrderedRing α] (sepf : α × α → α × α → α) (planets : List (Planet α))
    (moonObj : Option (Planet α)) (sunCoord : Option (α × α)) :
    List (SkyEvent α) :=
  conjPairLoop sepf (conjBodies planets moonObj) ++
    match sunCoord, moonObj with
    | some sc, some m =>
      let s := sepf sc (m.ra_deg, m.dec_deg)
      (if s < 8 then [SkyEvent.sepEvent "Possible solar eclipse window" s]
       else []) ++
      (if |s - 180| < 8 then
        [SkyEvent.sepEvent "Possible lunar eclipse window" (|s - 180|)]
       else [])
    | _, _ => []

/-! ### Spec-side formulations for the event detector -/

/-- Spec-side: the ordered pairs `(i, j)` with `i < j` of a list. -/
def orderedPairs : List β → List (β × β)
  | [] => []
  | x :: xs => xs.map (fun y => (x, y)) ++ orderedPairs xs

/-- Spec-side: "any pair with separation < 5.0° is reported as a
conjunction, named by both body names". -/
def specConjunctionList [LinearOrderedRing α] (sepf : α × α → α × α → α)
    (bodies : List (String × (α × α))) : List (SkyEvent α) :=
  (orderedPairs bodies).filterMap fun pr =>
    if sepf pr.1.2 pr.2.2 < 5 then
      some (SkyEvent.sepEvent ("Conjunction: " ++ pr.1.1 ++ " & " ++ pr.2.1)
        (sepf pr.1.2 pr.2.2))
    else none

/-- Spec-side: "Sun–Moon separation < 8.0° flags a possible solar-eclipse
window; |separation − 180°| < 8.0° flags a possible lunar-eclipse window",
applicable when both the Sun coordinate and the Moon entry are present. -/
def specEclipseList [LinearOrderedRing α] (sepf : α × α → α × α → α) (moonObj : Option (Planet α))
    (sunCoord : Option (α × α)) : List (SkyEvent α) :=
  match sunCoord, moonObj with
  | some sc, some m =>
    (if sepf sc (m.ra_deg, m.dec_deg) < 8 then
      [SkyEvent.sepEvent "Possible solar eclipse window"
        (sepf sc (m.ra_deg, m.dec_deg))]
     else []) ++
    (if |sepf sc (m.ra_deg, m.dec_deg) - 180| < 8 then
      [SkyEvent.sepEvent "Possible lunar eclipse window"
        (|sepf sc (m.ra_deg, m.dec_deg) - 180|)]
     else [])
  | _, _ => []

/-! ## Ephemeris mode manager (`SkyModel._ensure_ephem_kernel`, lines
168–180, and `SkyModel._ephem_context`, lines 182–192). -/

/-- The solar-system ephemeris source selected for a computation. -/
inductive EphemSource where
  | builtin
  | kernel (path : String)
  deriving DecidableEq

/-- Environment of the ephemeris manager: the `high_accuracy_ephem` flag,
the cached `_ephem_kernel_path`, the filesystem oracle `Path(...).exists()`
and the result of `download_file` (`none` = the download raised and the
`except` branch returned `None`). -/
structure EphemEnv where
  highAccuracy : Bool
  cachedPath : Option String
  pathExists : String → Bool
  downloadResult : Option String

/-- `_ensure_ephem_kernel`: `None` unless high accuracy is enabled; the
cached path when it exists (Python truthiness: a cached `""` is falsy);
otherwise the download result, with a failed download yielding `None`. -/
def ensureEphemKernel (e : EphemEnv) : Option String :=
  match e.highAccuracy with
  | false => none
  | true =>
    match e.cachedPath with
    | some p => if p ≠ "" ∧ e.pathExists p then some p else e.downloadResult
    | none => e.downloadResult

/-- The source selected by `_ephem_context`: the kernel when high accuracy
is enabled and `_ensure_ephem_kernel` produced a truthy, existing path;
`'builtin'` otherwise. -/
def ephemSelect (e : EphemEnv) : EphemSource :=
  match e.highAccuracy with
  | false => .builtin
  | true =>
    match ensureEphemKernel e with
    | some k => if k ≠ "" ∧ e.pathExists k then .kernel k else .builtin
    | none => .builtin

/-- Trace of one scoped use of `solar_system_ephemeris.set(...)`. -/
structure EphemScopeTrace where
  during : EphemSource
  after : EphemSource
  deriving DecidableEq

/-- `_ephem_context` as a scoped acquisition: `solar_system_ephemeris.set`
is a context manager that installs the chosen source for the body of the
`with` block and restores the previous global value `g` on exit (astropy
contract for `ScienceState.set`). -/
def ephemScopeRun (e : EphemEnv) (g : EphemSource) : EphemScopeTrace :=
  { during := ephemSelect e, after := g }

/-! ## Refraction corrector (`SkyModel._apply_refraction`, lines 367–379),
over `ℝ` since the source computes with `np.tan`. -/

/-- `alt_rad = np.radians(max(alt_deg, -1.0) + 0.001)`. -/
noncomputable def bennettRad (alt_deg : ℝ) : ℝ :=
  (max alt_deg (-1) + 1 / 1000) * (Real.pi / 180)

/-- The argument passed to `np.tan`: `alt_rad + 10.3 / (alt_rad + 5.11)`. -/
noncomputable def bennettArg (alt_deg : ℝ) : ℝ :=
  bennettRad alt_deg + (103 / 10) / (bennettRad alt_deg + 511 / 100)

/-- `_apply_refraction`: identity when refraction is disabled or
`alt_deg < -1.0 or alt_deg > 90.0`; otherwise
`alt_deg + (1.02 / np.tan(alt_rad + 10.3/(alt_rad + 5.11))) / 60.0`. -/
noncomputable def applyRefraction (enabled : Bool) (alt_deg : ℝ) : ℝ :=
  match enabled with
  | false => alt_deg
  | true =>
    if alt_deg < -1 ∨ 90 < alt_deg then alt_deg
    else alt_deg + (102 / 100) / Real.tan (bennettArg alt_deg) / 60

/-! ## Moon phase calculator (`SkyModel._moon_phase`, lines 331–365),
over `ℝ` since the source computes with `np.cos`. -/

/-- Python float `%`: `x % y = x - y * floor(x / y)` (sign of the divisor). -/
noncomputable def fmod (x y : ℝ) : ℝ := x - y * ⌊x / y⌋

/-- The Sun/Moon position query of `_moon_phase`: the two `get_body` calls
and `.separation(...)` are oracles; `none` models the `except` branch. -/
structure MoonPhaseObs where
  sun_ra : ℝ
  moon_ra : ℝ
  sepDeg : ℝ

/-- The fixed fraction bands naming the phase. -/
noncomputable def phaseNameOfFraction (fraction : ℝ) : String :=
  if fraction < 3 / 100 then "New Moon"
  else if fraction < 25 / 100 then "Waxing crescent"
  else if fraction < 27 / 100 then "First quarter"
  else if fraction < 48 / 100 then "Waxing gibbous"
  else if fraction < 52 / 100 then "Full Moon"
  else if fraction < 73 / 100 then "Waning gibbous"
  else if fraction < 77 / 100 then "Last quarter"
  else if fraction < 97 / 100 then "Waning crescent"
  else "New Moon"

/-- `_moon_phase`: returns `(fraction, name, waxing)`.  On success,
`fraction = (1 - cos(radians(phase_angle))) / 2` and
`waxing = ((moon_ra - sun_ra) % 360.0) < 180.0`; on failure of the position
query, `fraction = 0.0` and `waxing = True`. -/
noncomputable def moonPhase (q : Option MoonPhaseObs) : ℝ × String × Bool :=
  let fw : ℝ × Bool :=
    match q with
    | some d =>
      ((1 - Real.cos (d.sepDeg * (Real.pi / 180))) / 2,
       if fmod (d.moon_ra - d.sun_ra) 360 < 180 then true else false)
    | none => (0, true)
  (fw.1, phaseNameOfFraction fw.1, fw.2)

/-! ## Angular separation.  `astropy`'s `SkyCoord.separation` for ICRS
coordinates in degrees realises the spherical angular distance; it is the
oracle behind `sepf` and is modelled by the spherical law of cosines. -/

/-- Modelled from the spec: the Celestial Transform Service capability
`angularSeparation(coord_a, coord_b) -> degrees` (astropy
`SkyCoord.separation`, external to this repository), as the spherical
angular distance between `(ra_deg, dec_deg)` points. -/
noncomputable def angularSepDeg (c1 c2 : ℝ × ℝ) : ℝ :=
  (180 / Real.pi) *
    Real.arccos
      (Real.sin (c1.2 * (Real.pi / 180)) * Real.sin (c2.2 * (Real.pi / 180)) +
        Real.cos (c1.2 * (Real.pi / 180)) * Real.cos (c2.2 * (Real.pi / 180)) *
          Real.cos ((c1.1 - c2.1) * (Real.pi / 180)))

/-! ## Snapshot assembly (`SkyModel.get_planet_positions`, lines 381–421,
and `SkyModel.compute_snapshot`, lines 423–542). -/

/-- One `get_body` + AltAz transform result for a solar-system body:
`ra_deg`/`dec_deg` from the body coordinate, `alt`/`az` from the transform. -/
structure BodyObs (α : Type) where
  ra_deg : α
  dec_deg : α
  alt : α
  az : α

/-- `get_body('sun', ...)` + transform: the coordinate and its altitude. -/
structure SunObs (α : Type) where
  ra_deg : α
  dec_deg : α
  alt : α

/-- The astropy oracles consumed by one `compute_snapshot` call.  Every
field models an external query; an `Option` field is `none` exactly when
the corresponding Python call raises (so the `except` branch runs). -/
structure Oracles (α : Type) where
  /-- AltAz transform of a catalog star: `(ra, dec) ↦ (alt.degree, az.degree)`. -/
  starAltAz : α → α → α × α
  /-- `get_body(planet_name, ...)` + transform inside `get_planet_positions`. -/
  planetObs : String → Option (BodyObs α)
  /-- `get_body('moon', ...)` + transform inside `compute_snapshot`. -/
  moonObs : Option (BodyObs α)
  /-- The `(fraction, phase_name, waxing)` triple returned by
  `self._moon_phase(times)` (which never raises; verified at `ℝ` by
  `moonPhase`). -/
  moonPhaseResult : α × String × Bool
  /-- `get_body('sun', Time(dt_utc))` + transform in the twilight block. -/
  sunObs : Option (SunObs α)
  /-- `self.get_deep_sky(...)`; `none` models the `except` branch. -/
  dsoResult : Option (List (DeepSkyObject α))
  /-- Sampled altitude of the `get_sun(...)` coordinate in
  `_compute_rise_set_summary`; `none` models that block raising, in which
  case `events` stays `[]` before conjunctions are appended. -/
  sunSamples : Option (ℤ → α)
  /-- Sampled altitude of a fixed ICRS `(ra, dec)` coordinate at a time. -/
  bodyAltAt : α → α → ℤ → α
  /-- `coord_a.separation(coord_b).degree` between `(ra, dec)` coordinates. -/
  sepf : α × α → α × α → α

/-- `SkyModel.PLANETS`. -/
def PLANETS : List String := ["mercury", "venus", "mars", "jupiter", "saturn"]

/-- `get_planet_positions`: for each tracked planet, skip it when the
position query raises; otherwise include it iff the refraction-corrected
altitude is `> 0`, reporting that corrected altitude.  `refr` is
`self._apply_refraction`. -/
def getPlanetPositions [LinearOrder α] [Zero α] (o : Oracles α) (refr : α → α) : List (Planet α) :=
  PLANETS.filterMap fun pname =>
    match o.planetObs pname with
    | none => none
    | some b =>
      let altCorr := refr b.alt
      if 0 < altCorr then
        some { name := pname.capitalize, ra_deg := b.ra_deg,
               dec_deg := b.dec_deg, alt_deg := altCorr, az_deg := b.az,
               magnitude := none, phase_fraction := none, phase_name := none,
               waxing := none }
      else none

/-- The visible-star loop of `compute_snapshot` (lines 470–481): a star is
included iff its *uncorrected* transform altitude is `> 0`, and the entry
reports the refraction-corrected altitude. -/
def visibleStarsOf [LinearOrderedRing α] (o : Oracles α) (refr : α → α)
    (starsCatalog : List (CatalogRow α)) : List (Star α) :=
  starsCatalog.filterMap fun s =>
    let aa := o.starAltAz s.ra_deg s.dec_deg
    if 0 < aa.1 then
      some { id := s.id, name := s.name, ra_deg := s.ra_deg,
             dec_deg := s.dec_deg, mag := s.mag.getD 99,
             alt_deg := refr aa.1, az_deg := aa.2 }
    else none

/-- The Moon entry built by `compute_snapshot` (lines 497–507). -/
def moonEntry (phase : α × String × Bool) (refr : α → α) (m : BodyObs α) :
    Planet α :=
  { name := "Moon", ra_deg := m.ra_deg, dec_deg := m.dec_deg,
    alt_deg := refr m.alt, az_deg := m.az, magnitude := none,
    phase_fraction := some phase.1, phase_name := some phase.2.1,
    waxing := some phase.2.2 }

/-- The twilight-suppression test (line 518):
`float(self.twilight_sun_alt) < 90.0 and sun_aa.alt.degree > float(self.twilight_sun_alt)`;
false when the Sun query raised (the `except` branch passes). -/
def suppressTriggered [LinearOrderedRing α] (cfg : Config α) (o : Oracles α) : Bool :=
  match o.sunObs with
  | some su => decide (cfg.twilight_sun_alt < 90) && decide (cfg.twilight_sun_alt < su.alt)
  | none => false

/-- `_compute_rise_set_summary` (lines 216–234): a record for the Sun, one
for the Moon when `moon_obj` is present, and one per planet of the passed
list whose name is not `'moon'` (case-insensitively). -/
def computeRiseSetSummary [LinearOrder α] [Zero α] (o : Oracles α) (t0 : ℤ) (planets : List (Planet α))
    (moonObj : Option (Planet α)) (sunAlt : ℤ → α) : List (SkyEvent α) :=
  let sunRS := computeRiseSetForCoord sunAlt t0 10
  [SkyEvent.riseSet "Sun" sunRS.1 sunRS.2.1 sunRS.2.2] ++
    (match moonObj with
     | some m =>
       let rs := computeRiseSetForCoord (o.bodyAltAt m.ra_deg m.dec_deg) t0 10
       [SkyEvent.riseSet "Moon" rs.1 rs.2.1 rs.2.2]
     | none => []) ++
    (planets.filter fun p => p.name.toLower ≠ "moon").map fun p =>
      let rs := computeRiseSetForCoord (o.bodyAltAt p.ra_deg p.dec_deg) t0 10
      SkyEvent.riseSet p.name rs.1 rs.2.1 rs.2.2

/-- `compute_snapshot`: star filtering, planets, Moon insertion, twilight
suppression, deep-sky (computed *after* the suppression step), rise/set
summary and conjunction detection, in source order.  `catalog` is
`self.stars`; `refr` is `self._apply_refraction`; `t0` the normalized UTC
time in minutes. -/
def computeSnapshot [LinearOrderedField α] (cfg : Config α) (catalog : List (CatalogRow α))
    (refr : α → α) (o : Oracles α) (t0 : ℤ) : SkySnapshot α :=
  let starsCatalog :=
    filterCatalogByMag catalog
      (some (effectiveLimMag cfg.limiting_magnitude cfg.light_pollution_bortle))
  let visibleStars0 := visibleStarsOf o refr starsCatalog
  let planets0 := getPlanetPositions o refr
  let moonObj := o.moonObs.map (moonEntry o.moonPhaseResult refr)
  let planets1 :=
    match o.moonObs with
    | some m =>
      if 0 < refr m.alt then moonEntry o.moonPhaseResult refr m :: planets0
      else planets0
    | none => planets0
  let supp := suppressTriggered cfg o
  let visibleStars := if supp then [] else visibleStars0
  let visiblePlanets := if supp then [] else planets1
  let deepSky := o.dsoResult.getD []
  let events1 :=
    match o.sunSamples with
    | none => []
    | some f => computeRiseSetSummary o t0 visiblePlanets moonObj f
  let events2 :=
    match o.sunObs with
    | none => events1
    | some su =>
      events1 ++
        detectConjunctions o.sepf visiblePlanets moonObj
          (some (su.ra_deg, su.dec_deg))
  { visible_stars := visibleStars, visible_planets := visiblePlanets,
    moon := moonObj, deep_sky_objects := deepSky, events := events2 }

/-! ### Spec-side formulations for the rise/set solver -/

/-- Spec-side: the instants of upward zero-crossings
(`alts[i-1] <= 0 < alts[i]`) in a run of samples, given the previous
altitude and the remaining `(time, altitude)` pairs, in sample order. -/
def upCrossTimes [LinearOrder α] [Zero α] : α → List (ℤ × α) → List ℤ
  | _, [] => []
  | back, (t, a) :: rest =>
    (if back ≤ 0 ∧ 0 < a then [t] else []) ++ upCrossTimes a rest

/-- Spec-side: the instants of downward zero-crossings
(`alts[i-1] >= 0 > alts[i]`). -/
def downCrossTimes [LinearOrder α] [Zero α] : α → List (ℤ × α) → List ℤ
  | _, [] => []
  | back, (t, a) :: rest =>
    (if 0 ≤ back ∧ a < 0 then [t] else []) ++ downCrossTimes a rest

/-- The last element of a list of instants, or a default. -/
def lastOr (l : List ℤ) (d : Option ℤ) : Option ℤ :=
  match l.getLast? with
  | some t => some t
  | none => d

/-- The sampled altitudes of one rise/set scan. -/
def sampleAlts (altAt : ℤ → α) (t0 step : ℤ) : List α :=
  (riseSetSampleTimes t0 step).map altAt

/-- The `(time, altitude)` pairs of one rise/set scan. -/
def samplePairs (altAt : ℤ → α) (t0 step : ℤ) : List (ℤ × α) :=
  (riseSetSampleTimes t0 step).zip (sampleAlts altAt t0 step)

/-- Spec-side: all upward zero-crossing instants of one scan. -/
def upCrossingsOf [LinearOrder α] [Zero α] (altAt : ℤ → α) (t0 step : ℤ) : List ℤ :=
  match samplePairs altAt t0 step with
  | [] => []
  | (_, a0) :: rest => upCrossTimes a0 rest

/-- Spec-side: all downward zero-crossing instants of one scan. -/
def downCrossingsOf [LinearOrder α] [Zero α] (altAt : ℤ → α) (t0 step : ℤ) : List ℤ :=
  match samplePairs altAt t0 step with
  | [] => []
  | (_, a0) :: rest => downCrossTimes a0 rest

/-! ## Concrete fixtures used by counterexamples and witnesses -/

/-- A `ℚ`-valued oracle environment in which every astropy query fails or
returns nothing; concrete scenarios override individual fields. -/
def emptyOracleQ : Oracles ℚ :=
  { starAltAz := fun _ _ => (0, 0), planetObs := fun _ => none,
    moonObs := none, moonPhaseResult := (0, "New Moon", true),
    sunObs := none, dsoResult := none, sunSamples := none,
    bodyAltAt := fun _ _ _ => 0, sepf := fun _ _ => 0 }

/-- Fixture for the refraction/star-filter scenario: refraction enabled,
no twilight threshold, darkest Bortle class. -/
def cfgRefrStar : Config ℝ :=
  { limiting_magnitude := 6, apply_refraction := true,
    twilight_sun_alt := 90, light_pollution_bortle := 1 }

/-- Fixture: a one-star catalog (magnitude 1). -/
def catalogOneStar : List (CatalogRow ℝ) := [⟨1, "TestStar", 10, 20, some 1⟩]

/-- Fixture: an `ℝ`-valued oracle where the single star transforms to a raw
altitude of `0.001°` (just above the horizon) and every other query fails. -/
noncomputable def oracleStarLowAlt : Oracles ℝ :=
  { starAltAz := fun _ _ => (1 / 1000, 100), planetObs := fun _ => none,
    moonObs := none, moonPhaseResult := (0, "New Moon", true),
    sunObs := none, dsoResult := none, sunSamples := none,
    bodyAltAt := fun _ _ _ => 0, sepf := fun _ _ => 0 }

/-- Fixture for the twilight-suppression scenario: threshold `0°`
configured, refraction off. -/
def cfgTwilight : Config ℚ :=
  { limiting_magnitude := 6, apply_refraction := false,
    twilight_sun_alt := 0, light_pollution_bortle := 1 }

/-- Fixture: a one-star `ℚ` catalog. -/
def catalogOneStarQ : List (CatalogRow ℚ) := [⟨1, "QStar", 10, 20, some 1⟩]

/-- Fixture oracle for the twilight scenario: the Sun is at `45°` altitude
(above the threshold), a star and Mars are above the horizon, the Moon is
up, one deep-sky object is returned and the rise/set sampling works. -/
def oracleTwilight : Oracles ℚ :=
  { starAltAz := fun _ _ => (10, 100),
    planetObs := fun pname =>
      if pname = "mars" then some ⟨50, 5, 30, 200⟩ else none,
    moonObs := some ⟨120, 10, 20, 210⟩,
    moonPhaseResult := (1 / 2, "First quarter", true),
    sunObs := some ⟨120, 10, 45⟩,
    dsoResult := some [⟨"M31", 10, 41, 35, 100, "Galaxy"⟩],
    sunSamples := none,
    bodyAltAt := fun _ _ _ => 1, sepf := fun _ _ => 0 }

/-- Fixture: the planet list `compute_snapshot` holds just before the
twilight block in the `oracleTwilight` scenario (Moon inserted at the
front, Mars visible). -/
def unsupPlanetsTw : List (Planet ℚ) :=
  moonEntry oracleTwilight.moonPhaseResult id ⟨120, 10, 20, 210⟩ ::
    getPlanetPositions oracleTwilight id

/-- Fixture oracle for the Moon-insertion scenario: Moon up at `20°`, Mars
up, Sun below the twilight threshold. -/
def oracleMoonUp : Oracles ℚ :=
  { starAltAz := fun _ _ => (10, 100),
    planetObs := fun pname =>
      if pname = "mars" then some ⟨50, 5, 30, 200⟩ else none,
    moonObs := some ⟨120, 10, 20, 210⟩,
    moonPhaseResult := (1 / 2, "First quarter", true),
    sunObs := some ⟨120, 10, -30⟩,
    dsoResult := some [⟨"M31", 10, 41, 35, 100, "Galaxy"⟩],
    sunSamples := some fun _ => 1,
    bodyAltAt := fun _ _ _ => 1, sepf := fun _ _ => 0 }

/-- Fixture: the altitude pattern of the multiple-crossing rise/set
counterexample (several upward and downward crossings in the window). -/
def altMulti : ℤ → ℤ := fun t => if t % 200 < 100 then -1 else 1

/-- Fixture: two synthetic bodies at identical RA/Dec. -/
def bodiesSameCoord : List (Planet ℝ) :=
  [⟨"A", 10, 20, 50, 100, none, none, none, none⟩,
   ⟨"B", 10, 20, 40, 110, none, none, none, none⟩]

/-- Fixture: two synthetic bodies 90° apart on the celestial equator. -/
def bodies90Apart : List (Planet ℝ) :=
  [⟨"A", 30, 0, 50, 100, none, none, none, none⟩,
   ⟨"B", 120, 0, 40, 110, none, none, none, none⟩]

/-- Fixture: a constant-zero separation oracle over `ℚ`. -/
def sepZeroQ : ℚ × ℚ → ℚ × ℚ → ℚ := fun _ _ => 0

/-- Fixture: a two-body list for the conjunction witness. -/
def pairBodiesQ : List (String × (ℚ × ℚ)) := [("A", (0, 0)), ("B", (0, 0))]

/-! # Theorems -/

/-! ## Catalog filter: claims C5 and C6 -/

/-- The integer `max(0, bortle - 1)` cast to the field agrees with the
spec's field-level formula. -/
theorem effectiveLimMag_spec_form [LinearOrderedField α] (L : α) (b : ℤ) :
    effectiveLimMag L b = max (-5) (L - (2 / 10) * max 0 ((b : α) - 1)) := by
  unfold effectiveLimMag
  rw [Int.cast_max]
  push_cast
  ring_nf

/-- Filtering with a lower magnitude limit yields a sublist of filtering
with a higher one. -/
theorem filterCatalogByMag_sublist [LinearOrder α] (catalog : List (CatalogRow α))
    {lim lim' : α} (h : lim ≤ lim') :
    List.Sublist (filterCatalogByMag catalog (some lim))
      (filterCatalogByMag catalog (some lim')) := by
  unfold filterCatalogByMag
  refine List.monotone_filter_right catalog ?_
  intro s hs
  cases hm : s.mag with
  | none => simp [hm] at hs
  | some m =>
    simp [hm] at hs ⊢
    exact le_trans hs h

/-- Claim C5: the catalog filter retains exactly the entries whose parsed
magnitude is `≤ max(-5.0, L − 0.2 × max(0, b − 1))`, silently dropping
entries with unparseable magnitude; with `L = 6` and `b = 9` the effective
limit is `4.4` and the synthetic catalog `{1.0, 4.0, 4.5, 7.0}` retains
exactly two entries. -/
theorem c5_catalog_filter_effective_limit (catalog : List (CatalogRow ℚ))
    (L : ℚ) (b : ℤ) (hb1 : 1 ≤ b) (hb9 : b ≤ 9) :
    (∀ s : CatalogRow ℚ,
      s ∈ filterCatalogByMag catalog (some (effectiveLimMag L b)) ↔
        s ∈ catalog ∧ ∃ m, s.mag = some m ∧
          m ≤ max (-5) (L - (2 / 10) * max 0 ((b : ℚ) - 1))) ∧
    effectiveLimMag (6 : ℚ) 9 = 44 / 10 ∧
    (filterCatalogByMag synthCatalog (some (effectiveLimMag 6 9))).length = 2 := by
  refine ⟨?_, ?_, ?_⟩
  · intro s
    rw [← effectiveLimMag_spec_form]
    unfold filterCatalogByMag
    rw [List.mem_filter]
    cases hm : s.mag with
    | none => simp [hm]
    | some m => simp [hm]
  · norm_num [effectiveLimMag]
  · have h : effectiveLimMag (6 : ℚ) 9 = 44 / 10 := by norm_num [effectiveLimMag]
    rw [h]
    norm_num [filterCatalogByMag, synthCatalog, List.filter]

/-- Witness for C5 at `b = 9`, `L = 6` and the synthetic catalog. -/
theorem c5_catalog_filter_effective_limit_witness :
    (1 ≤ (9 : ℤ)) ∧ ((9 : ℤ) ≤ 9) ∧
      ((filterCatalogByMag synthCatalog
          (some (effectiveLimMag 6 9))).length = 2) :=
  ⟨by decide, by decide,
    (c5_catalog_filter_effective_limit synthCatalog 6 9 (by decide)
        (by decide)).2.2⟩

/-- Claim C6: with the limiting magnitude fixed, raising the Bortle level
from `b1` to `b2 ≥ b1` retains a subset of the entries (and hence no more
entries). -/
theorem c6_bortle_monotone [LinearOrderedField α] (catalog : List (CatalogRow α)) (L : α)
    (b1 b2 : ℤ) (h : b1 ≤ b2) :
    (∀ s ∈ filterCatalogByMag catalog (some (effectiveLimMag L b2)),
        s ∈ filterCatalogByMag catalog (some (effectiveLimMag L b1))) ∧
    (filterCatalogByMag catalog (some (effectiveLimMag L b2))).length ≤
      (filterCatalogByMag catalog (some (effectiveLimMag L b1))).length := by
  have hlim : effectiveLimMag L b2 ≤ effectiveLimMag L b1 := by
    unfold effectiveLimMag
    have h1 : (max 0 (b1 - 1) : ℤ) ≤ max 0 (b2 - 1) :=
      max_le_max le_rfl (by omega)
    have h2 : ((max 0 (b1 - 1) : ℤ) : α) ≤ ((max 0 (b2 - 1) : ℤ) : α) := by
      exact_mod_cast h1
    have h3 : ((max 0 (b1 - 1) : ℤ) : α) * (2 / 10) ≤
        ((max 0 (b2 - 1) : ℤ) : α) * (2 / 10) := by
      apply mul_le_mul_of_nonneg_right h2
      norm_num
    exact max_le_max le_rfl (by linarith)
  have hsub := filterCatalogByMag_sublist catalog hlim
  exact ⟨fun s hs => hsub.subset hs, hsub.length_le⟩

/-- Witness for C6 at the synthetic catalog, `b1 = 3`, `b2 = 9`. -/
theorem c6_bortle_monotone_witness :
    ((3 : ℤ) ≤ 9) ∧
      ((∀ s ∈ filterCatalogByMag synthCatalog
            (some (effectiveLimMag (6 : ℚ) 9)),
          s ∈ filterCatalogByMag synthCatalog
            (some (effectiveLimMag (6 : ℚ) 3))) ∧
        (filterCatalogByMag synthCatalog
            (some (effectiveLimMag (6 : ℚ) 9))).length ≤
          (filterCatalogByMag synthCatalog
              (some (effectiveLimMag (6 : ℚ) 3))).length) :=
  ⟨by decide, c6_bortle_monotone synthCatalog 6 3 9 (by decide)⟩

/-! ## Rise/set solver: claim C3 -/

theorem lastOr_cons (x : ℤ) (l : List ℤ) (d : Option ℤ) :
    lastOr (x :: l) d = lastOr l (some x) := by
  cases l with
  | nil => rfl
  | cons y t =>
    unfold lastOr
    rw [List.getLast?_cons_cons]
    cases h : (y :: t).getLast? with
    | some z => rfl
    | none =>
      exfalso
      have hs : (y :: t).getLast?.isSome = true :=
        List.getLast?_isSome.mpr (by simp)
      rw [h] at hs
      exact absurd hs (by simp)

theorem lastOr_append (l1 l2 : List ℤ) (d : Option ℤ) :
    lastOr (l1 ++ l2) d = lastOr l2 (lastOr l1 d) := by
  induction l1 generalizing d with
  | nil => rfl
  | cons x t ih => rw [List.cons_append, lastOr_cons, ih, lastOr_cons]

theorem lastOr_isSome_of_some (l : List ℤ) (x : ℤ) :
    (lastOr l (some x)).isSome := by
  induction l generalizing x with
  | nil => rfl
  | cons y t ih => rw [lastOr_cons]; exact ih y

theorem lastOr_none_iff (l : List ℤ) :
    lastOr l none = none ↔ l = [] := by
  cases l with
  | nil => simp [lastOr]
  | cons x t =>
    rw [lastOr_cons]
    constructor
    · intro h
      have hs := lastOr_isSome_of_some t x
      rw [h] at hs
      exact absurd hs (by simp)
    · intro h
      exact absurd h (by simp)

/-- The overwriting zero-crossing loop keeps the *last* crossing of each
direction (or the incoming accumulator when there is none). -/
theorem crossLoop_eq {α : Type} [LinearOrder α] [Zero α]
    (pairs : List (ℤ × α)) (back : α) (r s : Option ℤ) :
    crossLoop pairs back (r, s) =
      (lastOr (upCrossTimes back pairs) r,
       lastOr (downCrossTimes back pairs) s) := by
  induction pairs generalizing back r s with
  | nil => rfl
  | cons p rest ih =>
    obtain ⟨t, a⟩ := p
    rw [crossLoop, upCrossTimes, downCrossTimes, lastOr_append, lastOr_append,
      ih]
    congr 1
    · congr 1
      split
      · rw [lastOr_cons]; rfl
      · rfl
    · congr 1
      split
      · rw [lastOr_cons]; rfl
      · rfl

theorem foldMax_max {α : Type} [LinearOrder α] (a b : α) (l : List α) :
    foldMax (max a b) l = max a (foldMax b l) := by
  induction l generalizing b with
  | nil => rfl
  | cons c t ih =>
    show foldMax (max (max a b) c) t = max a (foldMax (max b c) t)
    rw [max_assoc, ih]

theorem maximum_eq_foldMax {α : Type} [LinearOrder α] (a : α) (l : List α) :
    (a :: l).maximum = some (foldMax a l) := by
  induction l generalizing a with
  | nil =>
    rw [List.maximum_singleton]
    rfl
  | cons b t ih =>
    rw [List.maximum_cons, ih b]
    have h1 : (some (foldMax b t) : WithBot α) = ((foldMax b t : α) : WithBot α) := rfl
    rw [h1, ← WithBot.coe_sup]
    have h2 : a ⊔ foldMax b t = foldMax a (b :: t) := by
      have h3 : foldMax a (b :: t) = foldMax (a ⊔ b) t := rfl
      rw [h3, foldMax_max]
    rw [h2]
    rfl

/-- Claim C3 (amended): the solver samples at a fixed 10-minute step over
the 24-hour window starting 12 hours before the instant floored to the top
of the hour (145 samples); it reports the *last* upward zero-crossing as
rise and the *last* downward zero-crossing as set (`None` exactly when no
crossing of that direction occurs), and the maximum sampled altitude as
culmination. -/
theorem c3_rise_set_last_crossing {α : Type} [LinearOrder α] [Zero α]
    (altAt : ℤ → α) (t0 : ℤ) :
    riseSetSampleTimes t0 10 =
      (List.range 145).map (fun i : ℕ => floorHourMinutes t0 - 720 + 10 * (i : ℤ)) ∧
    (computeRiseSetForCoord altAt t0 10).1 =
      lastOr (upCrossingsOf altAt t0 10) none ∧
    (computeRiseSetForCoord altAt t0 10).2.1 =
      lastOr (downCrossingsOf altAt t0 10) none ∧
    ((computeRiseSetForCoord altAt t0 10).1 = none ↔
      upCrossingsOf altAt t0 10 = []) ∧
    ((computeRiseSetForCoord altAt t0 10).2.1 = none ↔
      downCrossingsOf altAt t0 10 = []) ∧
    (sampleAlts altAt t0 10).maximum =
      some (computeRiseSetForCoord altAt t0 10).2.2 := by
  have htimes : riseSetSampleTimes t0 10 =
      (List.range 145).map (fun i : ℕ => floorHourMinutes t0 - 720 + 10 * (i : ℤ)) := rfl
  have hzip : samplePairs altAt t0 10 =
      (riseSetSampleTimes t0 10).zip ((riseSetSampleTimes t0 10).map altAt) := rfl
  have halts0 : sampleAlts altAt t0 10 = (riseSetSampleTimes t0 10).map altAt := rfl
  have hlen : ((riseSetSampleTimes t0 10).map altAt).length ≤
      (riseSetSampleTimes t0 10).length := by
    rw [List.length_map]
  have halts : (samplePairs altAt t0 10).map Prod.snd = sampleAlts altAt t0 10 := by
    rw [hzip, halts0, List.map_snd_zip _ _ hlen]
  have hne : samplePairs altAt t0 10 ≠ [] := by
    rw [hzip]
    intro h
    rcases List.zip_eq_nil_iff.mp h with h1 | h1
    · rw [htimes] at h1
      have h2 := List.map_eq_nil_iff.mp h1
      exact absurd h2 (by simp [List.range_eq_nil])
    · have h2 := List.map_eq_nil_iff.mp h1
      rw [htimes] at h2
      have h3 := List.map_eq_nil_iff.mp h2
      exact absurd h3 (by simp [List.range_eq_nil])
  cases hp : samplePairs altAt t0 10 with
  | nil => exact absurd hp hne
  | cons p rest =>
    obtain ⟨t1, a0⟩ := p
    have hmatch : (riseSetSampleTimes t0 10).zip
        ((riseSetSampleTimes t0 10).map altAt) = (t1, a0) :: rest := by
      rw [← hzip]; exact hp
    have hc : computeRiseSetForCoord altAt t0 10 =
        ((crossLoop rest a0 (none, none)).1, (crossLoop rest a0 (none, none)).2,
          foldMax a0 (rest.map Prod.snd)) := by
      simp only [computeRiseSetForCoord]
      rw [hmatch]
    have hup : upCrossingsOf altAt t0 10 = upCrossTimes a0 rest := by
      simp only [upCrossingsOf]
      rw [hp]
    have hdown : downCrossingsOf altAt t0 10 = downCrossTimes a0 rest := by
      simp only [downCrossingsOf]
      rw [hp]
    have hculm : sampleAlts altAt t0 10 = a0 :: rest.map Prod.snd := by
      rw [← halts, hp]
      rfl
    rw [hc, hup, hdown, crossLoop_eq, hculm]
    exact ⟨htimes, rfl, rfl, lastOr_none_iff _, lastOr_none_iff _,
      by rw [maximum_eq_foldMax]⟩

set_option maxRecDepth 4000 in
/-- Counterexample to claim C3 as stated: with several upward crossings in
the window, the first upward crossing is at `t = 100` minutes, but the
solver reports the *last* one (`t = 1300`) as rise (and the last downward
crossing `t = 1400` as set). -/
theorem c3_counterexample_first_vs_last :
    computeRiseSetForCoord altMulti 720 10 = (some 1300, some 1400, 1) ∧
    (upCrossingsOf altMulti 720 10).head? = some 100 ∧
    ((100 : ℤ) ≠ 1300) := by decide

/-! ## Refraction corrector: claims C4 and C1.
The source converts the altitude to radians *before* evaluating Bennett's
formula (whose constants expect degrees), so the tangent argument lies in
`(π/2, π)` for every altitude in `[-1, 90]` and the computed "correction"
is negative. -/

theorem bennettRad_bounds {a : ℝ} (h1 : -1 ≤ a) (h2 : a ≤ 90) :
    -(18 / 1000) ≤ bennettRad a ∧ bennettRad a ≤ 15709 / 10000 := by
  have hpi1 : (3.1415 : ℝ) < Real.pi := Real.pi_gt_d4
  have hpi2 : Real.pi < 3.1416 := Real.pi_lt_d4
  have hmax : max a (-1) = a := max_eq_left h1
  unfold bennettRad
  rw [hmax]
  constructor
  · nlinarith [mul_nonneg (by linarith : (0:ℝ) ≤ a + 1 / 1000 + 999 / 1000)
      (by linarith : (0:ℝ) ≤ Real.pi)]
  · nlinarith [mul_nonneg (by linarith : (0:ℝ) ≤ 90001 / 1000 - (a + 1 / 1000))
      (by linarith : (0:ℝ) ≤ Real.pi)]

/-- For every altitude in the corrector's active range, the argument passed
to `np.tan` lies strictly between `π/2` and `π`. -/
theorem bennettArg_bounds {a : ℝ} (h1 : -1 ≤ a) (h2 : a ≤ 90) :
    Real.pi / 2 < bennettArg a ∧ bennettArg a < Real.pi := by
  have hpi1 : (3.1415 : ℝ) < Real.pi := Real.pi_gt_d4
  have hpi2 : Real.pi < 3.1416 := Real.pi_lt_d4
  obtain ⟨hr1, hr2⟩ := bennettRad_bounds h1 h2
  set r := bennettRad a with hrdef
  have hd : (0 : ℝ) < r + 511 / 100 := by linarith
  have hq : (103 / 10) / (r + 511 / 100) * (r + 511 / 100) = 103 / 10 :=
    div_mul_cancel₀ _ (ne_of_gt hd)
  set q := (103 / 10) / (r + 511 / 100) with hqdef
  have harg : bennettArg a = r + q := rfl
  rw [harg]
  constructor
  · nlinarith [mul_nonneg (by linarith : (0:ℝ) ≤ r + 18 / 1000)
      (by linarith : (0:ℝ) ≤ r + 35212 / 10000)]
  · nlinarith [mul_nonneg (by linarith : (0:ℝ) ≤ 15709 / 10000 - r)
      (by linarith : (0:ℝ) ≤ r + 35394 / 10000)]

theorem tan_bennettArg_neg {a : ℝ} (h1 : -1 ≤ a) (h2 : a ≤ 90) :
    Real.tan (bennettArg a) < 0 := by
  obtain ⟨hx1, hx2⟩ := bennettArg_bounds h1 h2
  have hsin : 0 < Real.sin (bennettArg a) :=
    Real.sin_pos_of_pos_of_lt_pi (lt_trans (by positivity) hx1) hx2
  have hcos : Real.cos (bennettArg a) < 0 :=
    Real.cos_neg_of_pi_div_two_lt_of_lt hx1
      (by linarith [Real.pi_pos])
  rw [Real.tan_eq_sin_div_cos]
  exact div_neg_of_pos_of_neg hsin hcos

/-- With refraction enabled, the corrector strictly *decreases* every
altitude in `[-1, 90]`. -/
theorem applyRefraction_lt {a : ℝ} (h1 : -1 ≤ a) (h2 : a ≤ 90) :
    applyRefraction true a < a := by
  have htan := tan_bennettArg_neg h1 h2
  have hR : (102 / 100) / Real.tan (bennettArg a) < 0 :=
    div_neg_of_pos_of_neg (by norm_num) htan
  have hR60 : (102 / 100) / Real.tan (bennettArg a) / 60 < 0 :=
    div_neg_of_neg_of_pos hR (by norm_num)
  show (if a < -1 ∨ 90 < a then a
    else a + (102 / 100) / Real.tan (bennettArg a) / 60) < a
  rw [if_neg (by push_neg; constructor <;> linarith)]
  linarith

/-- The corrector is the identity when refraction is disabled, and when the
altitude is outside `[-1, 90]`. -/
theorem applyRefraction_noop (a : ℝ) :
    applyRefraction false a = a ∧
      (a < -1 ∨ 90 < a → applyRefraction true a = a) := by
  refine ⟨rfl, fun h => ?_⟩
  show (if a < -1 ∨ 90 < a then a
    else a + (102 / 100) / Real.tan (bennettArg a) / 60) = a
  rw [if_pos h]

/-- Claim C4 (code-bug evidence): for *every* `alt_deg ∈ (−1, 90)` with
refraction enabled, the corrector's output is strictly smaller than its
input — the opposite of the claimed monotonicity.  The slip: the source
feeds radians into Bennett's degree-based formula, making `R` negative
throughout the active range. -/
theorem c4_refraction_always_decreases (a : ℝ) (h1 : -1 < a) (h2 : a < 90) :
    applyRefraction true a < a :=
  applyRefraction_lt (le_of_lt h1) (le_of_lt h2)

/-- Witness for C4 at `alt_deg = 0`. -/
theorem c4_refraction_always_decreases_witness :
    ((-1 : ℝ) < 0) ∧ ((0 : ℝ) < 90) ∧ applyRefraction true 0 < 0 :=
  ⟨by norm_num, by norm_num,
    by simpa using c4_refraction_always_decreases 0 (by norm_num) (by norm_num)⟩

theorem sin_bound_interval {s : ℝ} (h1 : 44 / 100 < s) (h2 : s < 45 / 100) :
    (1 / 10 : ℝ) < Real.sin s := by
  have h3 := Real.sin_gt_sub_cube (by linarith : (0:ℝ) < s)
    (by linarith : s ≤ 1)
  have hcube : s ^ 3 < (45 / 100 : ℝ) ^ 3 :=
    pow_lt_pow_left₀ h2 (by linarith) (by norm_num)
  nlinarith

theorem cos_bennettArg_small : Real.cos (bennettArg (1 / 1000)) < -(1 / 10) := by
  have hpi1 : (3.1415 : ℝ) < Real.pi := Real.pi_gt_d4
  have hpi2 : Real.pi < 3.1416 := Real.pi_lt_d4
  have hr : bennettRad (1 / 1000) = Real.pi / 90000 := by
    unfold bennettRad
    rw [max_eq_left (by norm_num : (-1:ℝ) ≤ 1 / 1000)]
    ring
  have hr1 : (349 / 10000000 : ℝ) < bennettRad (1 / 1000) := by
    rw [hr]; nlinarith
  have hr2 : bennettRad (1 / 1000) < 350 / 10000000 := by
    rw [hr]; nlinarith
  have hd : (0 : ℝ) < bennettRad (1 / 1000) + 511 / 100 := by linarith
  have hq : (103 / 10) / (bennettRad (1 / 1000) + 511 / 100) *
      (bennettRad (1 / 1000) + 511 / 100) = 103 / 10 :=
    div_mul_cancel₀ _ (ne_of_gt hd)
  have hq1 : (201564 / 100000 : ℝ) <
      (103 / 10) / (bennettRad (1 / 1000) + 511 / 100) := by nlinarith
  have hq2 : (103 / 10) / (bennettRad (1 / 1000) + 511 / 100) <
      201566 / 100000 := by nlinarith
  have harg : bennettArg (1 / 1000) =
      bennettRad (1 / 1000) +
        (103 / 10) / (bennettRad (1 / 1000) + 511 / 100) := rfl
  have hs1 : (44 / 100 : ℝ) < bennettArg (1 / 1000) - Real.pi / 2 := by
    rw [harg]; nlinarith
  have hs2 : bennettArg (1 / 1000) - Real.pi / 2 < 45 / 100 := by
    rw [harg]; nlinarith
  have hsin2 := sin_bound_interval hs1 hs2
  have hx : bennettArg (1 / 1000) =
      Real.pi / 2 + (bennettArg (1 / 1000) - Real.pi / 2) := by ring
  have hcos : Real.cos (bennettArg (1 / 1000)) =
      -Real.sin (bennettArg (1 / 1000) - Real.pi / 2) := by
    rw [hx, Real.cos_add, Real.cos_pi_div_two, Real.sin_pi_div_two]
    ring_nf
  rw [hcos]
  linarith

/-- At a raw altitude of `0.001°`, the "corrected" altitude is negative
(the bogus correction is about `−0.008°`). -/
theorem applyRefraction_low_alt_neg : applyRefraction true (1 / 1000) < 0 := by
  have hcos := cos_bennettArg_small
  have hpi1 : (3.1415 : ℝ) < Real.pi := Real.pi_gt_d4
  have hx1 : Real.pi / 2 < bennettArg (1 / 1000) :=
    (bennettArg_bounds (by norm_num) (by norm_num)).1
  have hx2 : bennettArg (1 / 1000) < Real.pi :=
    (bennettArg_bounds (by norm_num) (by norm_num)).2
  have hsinpos : 0 < Real.sin (bennettArg (1 / 1000)) :=
    Real.sin_pos_of_pos_of_lt_pi (lt_trans (by positivity) hx1) hx2
  have hsinle : Real.sin (bennettArg (1 / 1000)) ≤ 1 := Real.sin_le_one _
  have hcosneg : Real.cos (bennettArg (1 / 1000)) < 0 := by linarith
  have htan_gt : (-10 : ℝ) < Real.tan (bennettArg (1 / 1000)) := by
    rw [Real.tan_eq_sin_div_cos]
    rw [lt_div_iff_of_neg hcosneg]
    nlinarith
  have htan_neg : Real.tan (bennettArg (1 / 1000)) < 0 :=
    tan_bennettArg_neg (by norm_num) (by norm_num)
  have hRlt : (102 / 100) / Real.tan (bennettArg (1 / 1000)) < -(102 / 1000) := by
    rw [div_lt_iff_of_neg htan_neg]
    nlinarith
  show (if (1 / 1000 : ℝ) < -1 ∨ (90:ℝ) < 1 / 1000 then (1 / 1000 : ℝ)
    else 1 / 1000 + (102 / 100) / Real.tan (bennettArg (1 / 1000)) / 60) < 0
  rw [if_neg (by push_neg; constructor <;> norm_num)]
  have h60 : (102 / 100) / Real.tan (bennettArg (1 / 1000)) / 60 <
      -(102 / 1000) / 60 :=
    (div_lt_div_iff_of_pos_right (by norm_num : (0:ℝ) < 60)).mpr hRlt
  linarith

/-- Claim C1 (code-bug evidence): with refraction enabled, a star whose
raw transform altitude is `0.001°` *is* included in `visible_stars`
(inclusion tests the uncorrected altitude, line 472), yet the entry's
reported refraction-corrected altitude is negative — so a body appears in
`visible_stars` whose corrected altitude is not strictly positive, and the
altitude deciding inclusion differs from the reported one. -/
theorem c1_star_included_with_negative_corrected_alt :
    (computeSnapshot cfgRefrStar catalogOneStar (applyRefraction true)
        oracleStarLowAlt 0).visible_stars.map Star.alt_deg =
      [applyRefraction true (1 / 1000)] ∧
    applyRefraction true (1 / 1000) < 0 := by
  constructor
  · norm_num [computeSnapshot, cfgRefrStar, catalogOneStar, oracleStarLowAlt,
      suppressTriggered, effectiveLimMag, filterCatalogByMag, visibleStarsOf,
      List.filter, List.filterMap, le_max_iff]
  · exact applyRefraction_low_alt_neg

/-! ## Moon phase calculator: claim C7 -/

/-- Claim C7: the Moon phase calculator returns
`illuminated_fraction = (1 − cos(phase_angle)) / 2`, which always lies in
`[0, 1]`; `waxing` is true iff `(moon_ra − sun_ra) mod 360 < 180`; and when
the position query fails it returns fraction `0.0` and waxing `true`
(with the "New Moon" label) instead of raising. -/
theorem c7_moon_phase_fraction_and_waxing :
    (∀ q : Option MoonPhaseObs,
      0 ≤ (moonPhase q).1 ∧ (moonPhase q).1 ≤ 1) ∧
    (∀ d : MoonPhaseObs,
      (moonPhase (some d)).1 =
        (1 - Real.cos (d.sepDeg * (Real.pi / 180))) / 2 ∧
      ((moonPhase (some d)).2.2 = true ↔
        fmod (d.moon_ra - d.sun_ra) 360 < 180)) ∧
    moonPhase none = (0, "New Moon", true) := by
  refine ⟨?_, ?_, ?_⟩
  · intro q
    cases q with
    | none =>
      constructor <;> norm_num [moonPhase]
    | some d =>
      have hc1 := Real.neg_one_le_cos (d.sepDeg * (Real.pi / 180))
      have hc2 := Real.cos_le_one (d.sepDeg * (Real.pi / 180))
      constructor
      · show 0 ≤ (1 - Real.cos (d.sepDeg * (Real.pi / 180))) / 2
        linarith
      · show (1 - Real.cos (d.sepDeg * (Real.pi / 180))) / 2 ≤ 1
        linarith
  · intro d
    refine ⟨rfl, ?_⟩
    by_cases h : fmod (d.moon_ra - d.sun_ra) 360 < 180
    · simp [moonPhase, h]
    · simp [moonPhase, h]
  · show (0, phaseNameOfFraction 0, true) = ((0 : ℝ), "New Moon", true)
    norm_num [phaseNameOfFraction]

/-! ## Ephemeris mode manager: claim C9 -/

/-- Claim C9: with high accuracy requested, a failed kernel fetch (no
usable cached path, download raised) selects the builtin source and the
computation proceeds (the selection is a total function); with high
accuracy not requested, the builtin source is always selected; in either
case the source is scoped to the computation and the global state is
restored on scope exit. -/
theorem c9_ephemeris_fallback (e : EphemEnv) (g : EphemSource) :
    (e.highAccuracy = true → e.downloadResult = none →
      (∀ p, e.cachedPath = some p → ¬(p ≠ "" ∧ e.pathExists p = true)) →
      ephemSelect e = .builtin) ∧
    (e.highAccuracy = false → ephemSelect e = .builtin) ∧
    (ephemScopeRun e g).during = ephemSelect e ∧
    (ephemScopeRun e g).after = g := by
  refine ⟨?_, ?_, rfl, rfl⟩
  · intro hacc hdl hcache
    unfold ephemSelect ensureEphemKernel
    rw [hacc]
    cases hc : e.cachedPath with
    | none =>
      simp [hdl]
    | some p =>
      have hp : ¬(p ≠ "" ∧ e.pathExists p = true) := hcache p hc
      simp [if_neg hp, hdl]
  · intro hacc
    unfold ephemSelect
    rw [hacc]

/-- Witness for C9: high accuracy on, no cached kernel, download failed. -/
theorem c9_ephemeris_fallback_witness :
    ephemSelect ⟨true, none, fun _ => false, none⟩ = .builtin ∧
      (ephemScopeRun ⟨true, none, fun _ => false, none⟩
        (.kernel "de421.bsp")).after = .kernel "de421.bsp" :=
  ⟨(c9_ephemeris_fallback ⟨true, none, fun _ => false, none⟩
      (.kernel "de421.bsp")).1 rfl rfl (by intro p h; cases h),
   (c9_ephemeris_fallback ⟨true, none, fun _ => false, none⟩
      (.kernel "de421.bsp")).2.2.2⟩

/-! ## Event detector: claim C8 -/

/-- The pairwise double loop enumerates exactly the ordered pairs `i < j`. -/
theorem conjPairLoop_eq_spec {α : Type} [LinearOrderedRing α]
    (sepf : α × α → α × α → α) (bodies : List (String × (α × α))) :
    conjPairLoop sepf bodies = specConjunctionList sepf bodies := by
  induction bodies with
  | nil => rfl
  | cons b rest ih =>
    obtain ⟨na, ca⟩ := b
    show (rest.filterMap fun b =>
        if sepf ca b.2 < 5 then
          some (SkyEvent.sepEvent ("Conjunction: " ++ na ++ " & " ++ b.1)
            (sepf ca b.2))
        else none) ++ conjPairLoop sepf rest =
      specConjunctionList sepf ((na, ca) :: rest)
    unfold specConjunctionList orderedPairs
    rw [List.filterMap_append, List.filterMap_map]
    rw [ih]
    rfl

theorem detectConjunctions_eq_spec {α : Type} [LinearOrderedRing α]
    (sepf : α × α → α × α → α) (ps : List (Planet α))
    (mo : Option (Planet α)) (so : Option (α × α)) :
    detectConjunctions sepf ps mo so =
      specConjunctionList sepf (conjBodies ps mo) ++
        specEclipseList sepf mo so := by
  unfold detectConjunctions specEclipseList
  rw [conjPairLoop_eq_spec]

/-- The angular separation of a coordinate from itself is `0`. -/
theorem angularSepDeg_self (c : ℝ × ℝ) : angularSepDeg c c = 0 := by
  unfold angularSepDeg
  have h0 : (c.1 - c.1) * (Real.pi / 180) = 0 := by ring
  rw [h0, Real.cos_zero]
  have h1 : Real.sin (c.2 * (Real.pi / 180)) * Real.sin (c.2 * (Real.pi / 180)) +
      Real.cos (c.2 * (Real.pi / 180)) * Real.cos (c.2 * (Real.pi / 180)) * 1 = 1 := by
    have := Real.sin_sq_add_cos_sq (c.2 * (Real.pi / 180))
    nlinarith [this]
  rw [h1, Real.arccos_one, mul_zero]

/-- Two equatorial points 90° apart in RA are 90° apart on the sphere. -/
theorem angularSepDeg_90 : angularSepDeg ((30 : ℝ), (0 : ℝ)) (120, 0) = 90 := by
  unfold angularSepDeg
  norm_num
  rw [show (90 : ℝ) * (Real.pi / 180) = Real.pi / 2 by ring]
  rw [Real.cos_pi_div_two, Real.arccos_zero]
  field_simp
  ring

theorem hstrAB : "Conjunction: " ++ "A" ++ " & " ++ "B" = "Conjunction: A & B" := rfl

/-- Claim C8: the event detector reports a conjunction exactly for the
ordered pairs of visible bodies (Moon included) with separation `< 5.0°`,
naming both bodies, and independently flags a solar-eclipse window iff the
Sun–Moon separation is `< 8.0°` and a lunar-eclipse window iff
`|separation − 180°| < 8.0°` (the `specConjunctionList`/`specEclipseList`
formulations); every reported conjunction's separation is below `5`; two
bodies at identical RA/Dec produce one conjunction with separation `0`,
and bodies 90° apart produce none. -/
theorem c8_conjunctions_and_eclipse_windows :
    (∀ (α : Type) [inst : LinearOrderedRing α],
      ∀ (sepf : α × α → α × α → α) (ps : List (Planet α))
        (mo : Option (Planet α)) (so : Option (α × α)),
      detectConjunctions sepf ps mo so =
        specConjunctionList sepf (conjBodies ps mo) ++
          specEclipseList sepf mo so) ∧
    (∀ (α : Type) [inst : LinearOrderedRing α],
      ∀ (sepf : α × α → α × α → α) (bodies : List (String × (α × α)))
        (e : SkyEvent α), e ∈ specConjunctionList sepf bodies →
      ∃ a b, (a, b) ∈ orderedPairs bodies ∧
        e = SkyEvent.sepEvent ("Conjunction: " ++ a.1 ++ " & " ++ b.1)
          (sepf a.2 b.2) ∧ sepf a.2 b.2 < 5) ∧
    detectConjunctions angularSepDeg bodiesSameCoord none none =
      [SkyEvent.sepEvent "Conjunction: A & B" 0] ∧
    detectConjunctions angularSepDeg bodies90Apart none none = [] := by
  refine ⟨?_, ?_, ?_, ?_⟩
  · intro α inst sepf ps mo so
    exact detectConjunctions_eq_spec sepf ps mo so
  · intro α inst sepf bodies e he
    unfold specConjunctionList at he
    rw [List.mem_filterMap] at he
    obtain ⟨pr, hmem, hpr⟩ := he
    by_cases h : sepf pr.1.2 pr.2.2 < 5
    · rw [if_pos h] at hpr
      exact ⟨pr.1, pr.2, hmem, (Option.some_inj.mp hpr).symm, h⟩
    · rw [if_neg h] at hpr
      exact absurd hpr (by simp)
  · rw [detectConjunctions_eq_spec]
    norm_num [specConjunctionList, specEclipseList, orderedPairs,
      conjBodies, bodiesSameCoord, angularSepDeg_self, List.filterMap_cons,
      hstrAB]
  · rw [detectConjunctions_eq_spec]
    norm_num [specConjunctionList, specEclipseList, orderedPairs,
      conjBodies, bodies90Apart, angularSepDeg_90, List.filterMap_cons]

/-- Witness for C8's membership clause at a concrete two-body list. -/
theorem c8_conjunctions_and_eclipse_windows_witness :
    (SkyEvent.sepEvent "Conjunction: A & B" (sepZeroQ (0, 0) (0, 0)) ∈
      specConjunctionList sepZeroQ pairBodiesQ) ∧
    (∃ a b, (a, b) ∈ orderedPairs pairBodiesQ ∧
      SkyEvent.sepEvent "Conjunction: A & B" (sepZeroQ (0, 0) (0, 0)) =
        SkyEvent.sepEvent ("Conjunction: " ++ a.1 ++ " & " ++ b.1)
          (sepZeroQ a.2 b.2) ∧ sepZeroQ a.2 b.2 < 5) :=
  ⟨by norm_num [specConjunctionList, orderedPairs, pairBodiesQ, sepZeroQ,
      List.filterMap_cons, hstrAB],
   c8_conjunctions_and_eclipse_windows.2.1 ℚ sepZeroQ pairBodiesQ _
     (by norm_num [specConjunctionList, orderedPairs, pairBodiesQ, sepZeroQ,
        List.filterMap_cons, hstrAB])⟩

/-! ## Snapshot assembly: claims C10 and C2 -/

/-- Entries produced by `get_planet_positions` carry no phase fields. -/
theorem getPlanetPositions_phase_none {α : Type} [LinearOrder α] [Zero α]
    (o : Oracles α) (refr : α → α) :
    ∀ p ∈ getPlanetPositions o refr, p.phase_fraction = none := by
  intro p hp
  unfold getPlanetPositions at hp
  rw [List.mem_filterMap] at hp
  obtain ⟨nm, _, h⟩ := hp
  cases hob : o.planetObs nm with
  | none => rw [hob] at h; exact absurd h (by simp)
  | some b =>
    rw [hob] at h
    by_cases halt : 0 < refr b.alt
    · simp only [if_pos halt] at h
      have := Option.some_inj.mp h
      rw [← this]
    · simp only [if_neg halt] at h
      exact absurd h (by simp)

/-- Claim C10: the snapshot's `moon` field is exactly the (phase-bearing)
Moon entry whenever the Moon computation succeeds — independently of its
altitude — and is `none` exactly when it fails; the Moon entry is a member
of `visible_planets` only when its corrected altitude is `> 0`, and with
no twilight suppression and positive corrected altitude it sits at the
front of `visible_planets`. -/
theorem c10_moon_field_and_insertion {α : Type} [LinearOrderedField α]
    (cfg : Config α) (catalog : List (CatalogRow α)) (refr : α → α)
    (o : Oracles α) (t0 : ℤ) :
    ((computeSnapshot cfg catalog refr o t0).moon =
      o.moonObs.map (moonEntry o.moonPhaseResult refr)) ∧
    (∀ m, o.moonObs = some m →
      moonEntry o.moonPhaseResult refr m ∈
        (computeSnapshot cfg catalog refr o t0).visible_planets →
      0 < refr m.alt) ∧
    (∀ m, o.moonObs = some m → 0 < refr m.alt →
      suppressTriggered cfg o = false →
      (computeSnapshot cfg catalog refr o t0).visible_planets =
        moonEntry o.moonPhaseResult refr m :: getPlanetPositions o refr) := by
  refine ⟨rfl, ?_, ?_⟩
  · intro m hm hmem
    by_cases hsupp : suppressTriggered cfg o
    · simp [computeSnapshot, hsupp] at hmem
    · by_cases halt : 0 < refr m.alt
      · exact halt
      · exfalso
        simp only [computeSnapshot, hm, if_neg halt, Bool.not_eq_true] at hmem
        rw [if_neg hsupp] at hmem
        have hpf := getPlanetPositions_phase_none o refr _ hmem
        simp [moonEntry] at hpf
  · intro m hm halt hsupp
    simp only [computeSnapshot, hm, if_pos halt]
    rw [if_neg (by simp [hsupp])]

/-- Witness for C10 at the `oracleMoonUp` scenario. -/
theorem c10_moon_field_and_insertion_witness :
    (oracleMoonUp.moonObs = some ⟨120, 10, 20, 210⟩) ∧
    (0 < id (20 : ℚ)) ∧
    (suppressTriggered cfgTwilight oracleMoonUp = false) ∧
    ((computeSnapshot cfgTwilight catalogOneStarQ id oracleMoonUp 0).moon =
      oracleMoonUp.moonObs.map (moonEntry oracleMoonUp.moonPhaseResult id)) ∧
    ((computeSnapshot cfgTwilight catalogOneStarQ id oracleMoonUp
        0).visible_planets =
      moonEntry oracleMoonUp.moonPhaseResult id ⟨120, 10, 20, 210⟩ ::
        getPlanetPositions oracleMoonUp id) ∧
    (0 < id ((⟨120, 10, 20, 210⟩ : BodyObs ℚ)).alt) :=
  ⟨rfl, by norm_num, rfl,
   (c10_moon_field_and_insertion cfgTwilight catalogOneStarQ id oracleMoonUp
      0).1,
   (c10_moon_field_and_insertion cfgTwilight catalogOneStarQ id oracleMoonUp
      0).2.2 ⟨120, 10, 20, 210⟩ rfl (by norm_num) rfl,
   (c10_moon_field_and_insertion cfgTwilight catalogOneStarQ id oracleMoonUp
      0).2.1 ⟨120, 10, 20, 210⟩ rfl
     (by
       rw [(c10_moon_field_and_insertion cfgTwilight catalogOneStarQ id
         oracleMoonUp 0).2.2 ⟨120, 10, 20, 210⟩ rfl (by norm_num) rfl]
       exact List.mem_cons_self _ _)⟩

/-- Claim C2 (amended): when the twilight threshold is configured
(`< 90`) and the Sun's altitude exceeds it, `compute_snapshot` clears
`visible_stars` and `visible_planets` only; `deep_sky_objects` is computed
*after* the suppression step and returned unsuppressed; the rise/set and
conjunction events are computed from the *suppressed* (empty) planet list
together with the separately kept Moon entry and Sun coordinate; the
`moon` field is unaffected. -/
theorem c2_suppression_clears_only_stars_and_planets {α : Type}
    [LinearOrderedField α] (cfg : Config α) (catalog : List (CatalogRow α))
    (refr : α → α) (o : Oracles α) (t0 : ℤ) (su : SunObs α)
    (hsun : o.sunObs = some su) (h90 : cfg.twilight_sun_alt < 90)
    (halt : cfg.twilight_sun_alt < su.alt) :
    (computeSnapshot cfg catalog refr o t0).visible_stars = [] ∧
    (computeSnapshot cfg catalog refr o t0).visible_planets = [] ∧
    (computeSnapshot cfg catalog refr o t0).deep_sky_objects =
      o.dsoResult.getD [] ∧
    (computeSnapshot cfg catalog refr o t0).moon =
      o.moonObs.map (moonEntry o.moonPhaseResult refr) ∧
    (computeSnapshot cfg catalog refr o t0).events =
      (match o.sunSamples with
       | none => []
       | some f =>
         computeRiseSetSummary o t0 []
           (o.moonObs.map (moonEntry o.moonPhaseResult refr)) f) ++
        detectConjunctions o.sepf []
          (o.moonObs.map (moonEntry o.moonPhaseResult refr))
          (some (su.ra_deg, su.dec_deg)) := by
  have hsupp : suppressTriggered cfg o = true := by
    unfold suppressTriggered
    rw [hsun]
    simp [h90, halt]
  refine ⟨?_, ?_, rfl, rfl, ?_⟩
  · simp only [computeSnapshot, hsupp, if_true]
  · simp only [computeSnapshot, hsupp, if_true]
  · simp only [computeSnapshot, hsupp, hsun, if_true]

/-- Counterexample to claim C2 as stated: in the `oracleTwilight` scenario
the Sun (altitude 45°) is above the configured threshold 0°, and the
snapshot's star and planet lists are indeed cleared — but
`deep_sky_objects` is *not* empty, and `events` differs from the events
computed from the unsuppressed visible sets (the suppressed run yields 1
event, the unsuppressed sets would yield 4). -/
theorem c2_counterexample_dso_and_events :
    (computeSnapshot cfgTwilight catalogOneStarQ id oracleTwilight
        0).visible_stars = [] ∧
    (computeSnapshot cfgTwilight catalogOneStarQ id oracleTwilight
        0).visible_planets = [] ∧
    (computeSnapshot cfgTwilight catalogOneStarQ id oracleTwilight
        0).deep_sky_objects = [⟨"M31", 10, 41, 35, 100, "Galaxy"⟩] ∧
    (computeSnapshot cfgTwilight catalogOneStarQ id oracleTwilight
        0).events.length = 1 ∧
    (detectConjunctions oracleTwilight.sepf unsupPlanetsTw
        (some (moonEntry oracleTwilight.moonPhaseResult id ⟨120, 10, 20, 210⟩))
        (some (120, 10))).length = 4 ∧
    (computeSnapshot cfgTwilight catalogOneStarQ id oracleTwilight
        0).events ≠
      detectConjunctions oracleTwilight.sepf unsupPlanetsTw
        (some (moonEntry oracleTwilight.moonPhaseResult id ⟨120, 10, 20, 210⟩))
        (some (120, 10)) := by
  have hmars : getPlanetPositions oracleTwilight id =
      [⟨"Mars", 50, 5, 30, 200, none, none, none, none⟩] := rfl
  have hlen1 : (computeSnapshot cfgTwilight catalogOneStarQ id oracleTwilight
      0).events.length = 1 := by
    norm_num [computeSnapshot, oracleTwilight, cfgTwilight, suppressTriggered,
      detectConjunctions, conjBodies, conjPairLoop, moonEntry,
      List.filterMap_cons]
  have hsep : oracleTwilight.sepf = fun _ _ => (0 : ℚ) := rfl
  have hunsup : unsupPlanetsTw =
      [moonEntry oracleTwilight.moonPhaseResult id ⟨120, 10, 20, 210⟩,
       ⟨"Mars", 50, 5, 30, 200, none, none, none, none⟩] := by
    rw [unsupPlanetsTw, hmars]
  have hlen4 : (detectConjunctions oracleTwilight.sepf unsupPlanetsTw
      (some (moonEntry oracleTwilight.moonPhaseResult id ⟨120, 10, 20, 210⟩))
      (some (120, 10))).length = 4 := by
    rw [hunsup, hsep]
    norm_num [detectConjunctions, conjBodies, conjPairLoop, moonEntry,
      List.filterMap_cons]
  refine ⟨rfl, rfl, rfl, hlen1, hlen4, ?_⟩
  intro h
  rw [h, hlen4] at hlen1
  exact absurd hlen1 (by norm_num)

/-- Witness for the amended C2 at the `oracleTwilight` scenario. -/
theorem c2_suppression_witness :
    (oracleTwilight.sunObs = some ⟨120, 10, 45⟩) ∧
    (cfgTwilight.twilight_sun_alt < 90) ∧
    (cfgTwilight.twilight_sun_alt < (45 : ℚ)) ∧
    ((computeSnapshot cfgTwilight catalogOneStarQ id oracleTwilight
        0).visible_stars = [] ∧
      (computeSnapshot cfgTwilight catalogOneStarQ id oracleTwilight
          0).visible_planets = [] ∧
      (computeSnapshot cfgTwilight catalogOneStarQ id oracleTwilight
          0).deep_sky_objects = oracleTwilight.dsoResult.getD [] ∧
      (computeSnapshot cfgTwilight catalogOneStarQ id oracleTwilight
          0).moon =
        oracleTwilight.moonObs.map
          (moonEntry oracleTwilight.moonPhaseResult id) ∧
      (computeSnapshot cfgTwilight catalogOneStarQ id oracleTwilight
          0).events =
        (match oracleTwilight.sunSamples with
         | none => []
         | some f =>
           computeRiseSetSummary oracleTwilight 0 []
             (oracleTwilight.moonObs.map
               (moonEntry oracleTwilight.moonPhaseResult id)) f) ++
          detectConjunctions oracleTwilight.sepf []
            (oracleTwilight.moonObs.map
              (moonEntry oracleTwilight.moonPhaseResult id))
            (some ((⟨120, 10, 45⟩ : SunObs ℚ).ra_deg,
              (⟨120, 10, 45⟩ : SunObs ℚ).dec_deg))) :=
  ⟨rfl, by norm_num [cfgTwilight], by norm_num [cfgTwilight],
   c2_suppression_clears_only_stars_and_planets cfgTwilight catalogOneStarQ
     id oracleTwilight 0 ⟨120, 10, 45⟩ rfl (by norm_num [cfgTwilight])
     (by norm_num [cfgTwilight])⟩

end NightSky
